import Mathlib

/-!
Verification of `afusion/execution.py` (`run_alphafold`): a shallow embedding
of the Slurm job-lifecycle driver — script generation, submission, status
polling, incremental log tailing and terminal-state classification — together
with proofs and refutations of the specified properties.

Strings are modelled as lists of characters (`Str`), so that the byte-level
cursor arithmetic of the log tailer is explicit.
-/

set_option autoImplicit false

namespace Execution

/-- Strings of the model: Python `str` values as lists of characters. -/
abbrev Str := List Char

/-- Shorthand turning a Lean string literal into a model string. -/
def str (s : String) : Str := s.data

/-- Python `str.strip()` with no arguments: remove leading and trailing
whitespace. -/
def pyStrip (s : Str) : Str :=
  ((s.dropWhile Char.isWhitespace).reverse.dropWhile Char.isWhitespace).reverse

/-- Accumulator worker for `pySplitWs`; `acc` holds the reversed current
word. -/
def splitWsAcc : Str → Str → List Str
  | [], acc => if acc.isEmpty then [] else [acc.reverse]
  | c :: rest, acc =>
    if c.isWhitespace then
      if acc.isEmpty then splitWsAcc rest [] else acc.reverse :: splitWsAcc rest []
    else splitWsAcc rest (c :: acc)

/-- Python `str.split()` with no arguments: split on runs of whitespace,
discarding empty pieces. -/
def pySplitWs (s : Str) : List Str := splitWsAcc s []

/-- Python `file.readlines()`: split into lines, each line keeping its
terminating newline; a final unterminated segment is returned as-is. -/
def splitLinesKeep : Str → List Str
  | [] => []
  | c :: rest =>
    if c = '\n' then [c] :: splitLinesKeep rest
    else
      match splitLinesKeep rest with
      | [] => [[c]]
      | l :: ls => (c :: l) :: ls

/-!
### Script Builder (execution.py lines 21-31)

The f-string template `slurm_script_content`.  The header is every character
of the template before `{command}`; the full script is the header, the
command verbatim, and the final newline of the template.
-/

/-- The portion of the Slurm script template before the `{command}`
interpolation, with the two `{slurm_log_dir}` holes and the `{slurm_time}`
hole filled in. -/
def scriptHeader (slurm_log_dir slurm_time : Str) : Str :=
  str "#!/bin/bash\n" ++
  str "#SBATCH --job-name=alphafold_run\n" ++
  (str "#SBATCH --output=" ++ slurm_log_dir ++ str "/run/stdout-%j.log\n") ++
  (str "#SBATCH --error=" ++ slurm_log_dir ++ str "/run/stderr-%j.log\n") ++
  (str "#SBATCH --time=" ++ slurm_time ++ str "\n") ++
  str "#SBATCH --gpus=1\n" ++
  str "\n" ++
  str "# Run the command\n"

/-- The rendered Slurm batch script: header, then the user command verbatim,
then the template's trailing newline. -/
def buildScriptContent (command slurm_log_dir slurm_time : Str) : Str :=
  scriptHeader slurm_log_dir slurm_time ++ command ++ str "\n"

/-- Recover the command line from a rendered script: drop the header for the
given log directory and wall-clock limit, and the trailing newline. -/
def extractCommand (script slurm_log_dir slurm_time : Str) : Str :=
  (script.drop (scriptHeader slurm_log_dir slurm_time).length).dropLast

/-- JobSpec of the specification's data model: command, log directory,
wall-clock limit and requested accelerator count. -/
structure JobSpec where
  command : Str
  logDirectory : Str
  wallClockLimit : Str
  acceleratorCount : Nat
deriving DecidableEq

/-- How `run_alphafold` consumes a JobSpec: `command`, `slurm_log_dir` and
`slurm_time` are its parameters; the source has no parameter corresponding to
`acceleratorCount` (the script hard-codes `#SBATCH --gpus=1`). -/
def buildScriptFromSpec (spec : JobSpec) : Str :=
  buildScriptContent spec.command spec.logDirectory spec.wallClockLimit

/-- Derived stderr log path, execution.py line 49:
`f"{slurm_log_dir}/run/stderr-{job_id}.log"`. -/
def stderrPath (slurm_log_dir job_id : Str) : Str :=
  slurm_log_dir ++ str "/run/stderr-" ++ job_id ++ str ".log"

/-!
### Log Tailer (execution.py lines 66-72)

`seek(last_read_pos)` / `readlines()` / `tell()` on the stderr log, guarded
by `os.path.exists`.
-/

/-- One incremental read: when the file is missing the cursor is unchanged
and nothing is returned; otherwise read from the cursor to end of file,
split into lines, and return the new cursor (the `tell()` after `readlines`:
the end of file, or the seek position itself when it lay past the end). -/
def tailRead (file : Option Str) (pos : Nat) : List Str × Nat :=
  match file with
  | none => ([], pos)
  | some content => (splitLinesKeep (content.drop pos), max pos content.length)

/-- Thread the cursor through a sequence of reads, one per observed file
state, collecting each read's returned lines. -/
def tailRun : List (Option Str) → Nat → List (List Str) × Nat
  | [], pos => ([], pos)
  | f :: fs, pos =>
    let r := tailRead f pos
    let rest := tailRun fs r.2
    (r.1 :: rest.1, rest.2)

/-- The cursor values seen along a `tailRun`: the initial cursor and the
cursor after each read. -/
def tailCursors : List (Option Str) → Nat → List Nat
  | [], pos => [pos]
  | f :: fs, pos => pos :: tailCursors fs (tailRead f pos).2

/-!
### Status classification (execution.py lines 58-63)
-/

/-- Result of classifying one `sacct` status string. -/
inductive StatusClass
  | completed
  | failedOrCancelled
  | nonTerminal
deriving DecidableEq

/-- The driver's classification of the stripped `sacct` output:
`"COMPLETED" in job_status` is tested first, then
`"FAILED" in job_status or "CANCELLED" in job_status`; anything else is
non-terminal. -/
def classifyStatus (job_status : Str) : StatusClass :=
  if str "COMPLETED" <:+: job_status then .completed
  else if str "FAILED" <:+: job_status ∨ str "CANCELLED" <:+: job_status then
    .failedOrCancelled
  else .nonTerminal

/-!
### Lifecycle Driver (execution.py lines 33-85)
-/

/-- What one iteration of the poll loop observes of the outside world: the
raw `sacct` stdout, the stderr log file's content at read time (`none` while
the file does not yet exist), and — to model the driver-boundary exception
handler — an optional exception raised inside this iteration. -/
structure PollObs where
  statusStdout : Str
  logFile : Option Str
  pollExn : Option Str
deriving DecidableEq

/-- External behaviour of one run: an optional exception while writing the
script (which in the source happens before the `try` block), an optional
exception from the submit call, the submit command's exit code, stdout and
stderr, and the per-iteration poll observations. -/
structure Env where
  writeErr : Option Str
  submitExn : Option Str
  submitReturncode : Int
  submitStdout : Str
  submitStderr : Str
  polls : List PollObs
deriving DecidableEq

/-- Mutable state of the poll loop: `output_lines`, `last_read_pos`, and a
count of how many times the log file was opened and read. -/
structure LoopCore where
  outputLines : List Str
  lastReadPos : Nat
  logReads : Nat
deriving DecidableEq

/-- How `run_alphafold` ends: a returned string, an exception escaping to the
caller, or the poll loop still running when the observation list ends. -/
inductive Outcome
  | ok (s : Str)
  | raised (e : Str)
  | pending
deriving DecidableEq

/-- The streamlit payload for one `placeholder.markdown` call:
the full accumulated output fenced as a markdown code block. -/
def fencePayload (joined : Str) : Str :=
  str "```\n" ++ joined ++ str "\n```"

/-- The log-reading part of one poll iteration (lines 66-77): when the file
exists, read the new lines, extend `output_lines`, advance the cursor, and —
once per new line, inside the `for` loop — call `placeholder.markdown` with
the full accumulated output if a placeholder was supplied.  Returns the new
loop state and the list of placeholder payloads emitted. -/
def iterRead (placeholder : Option Unit) (core : LoopCore) (file : Option Str) :
    LoopCore × List Str :=
  match file with
  | none => (core, [])
  | some content =>
    let r := tailRead (some content) core.lastReadPos
    let outs := core.outputLines ++ r.1
    let calls :=
      if placeholder.isSome then r.1.map (fun _ => fencePayload outs.flatten) else []
    (⟨outs, r.2, core.logReads + 1⟩, calls)

/-- The poll loop (lines 53-79): per iteration, classify the stripped status;
on `COMPLETED` break and return the joined output; on `FAILED`/`CANCELLED`
return the raw status string; otherwise read the log and continue.  An
exception inside an iteration is caught at the driver boundary and returned
as its description.  Returns the final loop state, the placeholder payloads
in order, and the outcome. -/
def pollLoop (placeholder : Option Unit) :
    LoopCore → List PollObs → LoopCore × List Str × Outcome
  | core, [] => (core, [], .pending)
  | core, obs :: rest =>
    match obs.pollExn with
    | some e => (core, [], .ok e)
    | none =>
      match classifyStatus (pyStrip obs.statusStdout) with
      | .completed => (core, [], .ok core.outputLines.flatten)
      | .failedOrCancelled => (core, [], .ok (pyStrip obs.statusStdout))
      | .nonTerminal =>
        let r := iterRead placeholder core obs.logFile
        let rest2 := pollLoop placeholder r.1 rest
        (rest2.1, r.2 ++ rest2.2.1, rest2.2.2)

/-- Everything observable about one run: the script that was written, the
final loop state, the placeholder payloads, and the outcome. -/
structure RunOutput where
  script : Str
  core : LoopCore
  observerCalls : List Str
  outcome : Outcome
deriving DecidableEq

/-- `run_alphafold(command, slurm_log_dir, placeholder, slurm_time)` over an
environment `env`.  The script is rendered and written (a write failure, being
outside the `try` block, escapes to the caller); then inside `try`: submit
(non-zero exit returns the captured stderr), parse the job id as the last
whitespace token of stdout (an empty token list raises `IndexError`, caught by
the boundary handler as `"list index out of range"`), then poll. -/
def run_alphafold (command slurm_log_dir : Str) (placeholder : Option Unit)
    (slurm_time : Str) (env : Env) : RunOutput :=
  let script := buildScriptContent command slurm_log_dir slurm_time
  let core0 : LoopCore := ⟨[], 0, 0⟩
  match env.writeErr with
  | some e => ⟨script, core0, [], .raised e⟩
  | none =>
    match env.submitExn with
    | some e => ⟨script, core0, [], .ok e⟩
    | none =>
      if env.submitReturncode ≠ 0 then ⟨script, core0, [], .ok env.submitStderr⟩
      else
        match (pySplitWs (pyStrip env.submitStdout)).getLast? with
        | none => ⟨script, core0, [], .ok (str "list index out of range")⟩
        | some _job_id =>
          let r := pollLoop placeholder core0 env.polls
          ⟨script, r.1, r.2.1, r.2.2⟩

/-!
### Concrete environments used as test inputs
-/

/-- One non-terminal poll while the log file is still missing, then a poll
that observes `COMPLETED` with the file present holding `"line1\nline2\n"`. -/
def envLateLog : Env :=
  ⟨none, none, 0, str "Submitted batch job 42", [],
    [⟨str "PENDING\n", none, none⟩,
     ⟨str "COMPLETED\n", some (str "line1\nline2\n"), none⟩]⟩

/-- Submission succeeds (exit code 0) but prints nothing; stderr holds
`"quota exceeded"`. -/
def envEmptyStdout : Env := ⟨none, none, 0, [], str "quota exceeded", []⟩

/-- Submission fails with exit code 1 and stderr `"quota exceeded"`. -/
def envSubmitReject : Env := ⟨none, none, 1, [], str "quota exceeded", []⟩

/-- Writing the batch script raises `"Permission denied"`. -/
def envWriteFail : Env := ⟨some (str "Permission denied"), none, 0, [], [], []⟩

/-- Submission succeeds; the first poll iteration itself raises
`"disk error"`. -/
def envPollExn : Env :=
  ⟨none, none, 0, str "Submitted batch job 9", [],
    [⟨str "RUNNING", none, some (str "disk error")⟩]⟩

/-- One non-terminal poll that reads two fresh lines, then completion. -/
def envTwoLines : Env :=
  ⟨none, none, 0, str "Submitted batch job 7", [],
    [⟨str "RUNNING", some (str "line1\nline2\n"), none⟩,
     ⟨str "COMPLETED", some (str "line1\nline2\n"), none⟩]⟩

/-- A single poll whose status string mixes `COMPLETED` and `FAILED`. -/
def envMixedCF : Env :=
  ⟨none, none, 0, str "Submitted batch job 7", [],
    [⟨str "COMPLETED FAILED", none, none⟩]⟩

/-- A single poll whose status string mixes `CANCELLED` and `COMPLETED`. -/
def envMixedCanc : Env :=
  ⟨none, none, 0, str "Submitted batch job 8", [],
    [⟨str "CANCELLED COMPLETED", none, none⟩]⟩

/-!
### Helper lemmas
-/

/-- Rejoining the lines produced by `splitLinesKeep` restores the exact
character sequence: the line split loses no bytes and adds none. -/
theorem splitLinesKeep_flatten : ∀ l : Str, (splitLinesKeep l).flatten = l := by
  intro l
  induction l with
  | nil => rfl
  | cons c rest ih =>
    by_cases hc : c = '\n'
    · subst hc
      simp [splitLinesKeep, ih]
    · simp only [splitLinesKeep, if_neg hc]
      cases hsplit : splitLinesKeep rest with
      | nil =>
        have hrest : rest = [] := by
          have := ih
          rw [hsplit] at this
          exact this.symm
        simp [hrest]
      | cons hd tl =>
        have ih2 : hd ++ tl.flatten = rest := by
          have := ih
          rw [hsplit] at this
          simpa using this
        simp [List.flatten_cons, ih2]

/-- A single tail read never rewinds the cursor. -/
theorem tailRead_pos_le (f : Option Str) (pos : Nat) : pos ≤ (tailRead f pos).2 := by
  cases f with
  | none => simp [tailRead]
  | some content => simp [tailRead]

/-- The cursor trace always starts at the initial cursor. -/
theorem tailCursors_head (fs : List (Option Str)) (pos : Nat) :
    (tailCursors fs pos).head? = some pos := by
  cases fs <;> rfl

/-- The threaded cursor is monotonically non-decreasing along any sequence of
reads. -/
theorem tailCursors_chain (fs : List (Option Str)) :
    ∀ pos : Nat, List.Chain' (· ≤ ·) (tailCursors fs pos) := by
  induction fs with
  | nil => intro pos; simp [tailCursors]
  | cons f fs ih =>
    intro pos
    rw [tailCursors, List.chain'_cons']
    refine ⟨?_, ih _⟩
    intro b hb
    rw [tailCursors_head] at hb
    cases hb
    exact tailRead_pos_le f pos

/-- Invariant of the threaded tail reads: starting with the cursor at the end
of already-seen content `c`, on a chain of file states each extending the
last, the bytes returned are exactly the bytes appended after `c`, and the
final cursor sits at the end of the last observed content. -/
theorem tailRun_chain_aux :
    ∀ (fs : List (Option Str)) (c : Str),
      List.Chain (· <+: ·) c (fs.filterMap id) →
      c ++ (tailRun fs c.length).1.flatten.flatten = (fs.filterMap id).getLastD c
      ∧ (tailRun fs c.length).2 = ((fs.filterMap id).getLastD c).length := by
  intro fs
  induction fs with
  | nil => intro c _; simp [tailRun]
  | cons f fs ih =>
    intro c h
    cases f with
    | none =>
      have h' : List.Chain (· <+: ·) c (fs.filterMap id) := by simpa using h
      have := ih c h'
      simpa [tailRun, tailRead] using this
    | some d =>
      have h2 : List.Chain (· <+: ·) c (d :: fs.filterMap id) := by simpa using h
      have hcd : c <+: d := (List.chain_cons.mp h2).1
      have h' : List.Chain (· <+: ·) d (fs.filterMap id) := (List.chain_cons.mp h2).2
      obtain ⟨t, rfl⟩ := hcd
      have hmax : max c.length (c ++ t).length = (c ++ t).length :=
        Nat.max_eq_right (by simp)
      have hdrop : (c ++ t).drop c.length = t := List.drop_left c t
      have hrec := ih (c ++ t) h'
      constructor
      · calc c ++ (tailRun (some (c ++ t) :: fs) c.length).1.flatten.flatten
            = c ++ (t ++ (tailRun fs (c ++ t).length).1.flatten.flatten) := by
              simp [tailRun, tailRead, hdrop, hmax, splitLinesKeep_flatten]
          _ = (c ++ t) ++ (tailRun fs (c ++ t).length).1.flatten.flatten := by
              rw [List.append_assoc]
          _ = (fs.filterMap id).getLastD (c ++ t) := hrec.1
          _ = ((some (c ++ t) :: fs).filterMap id).getLastD c := by
              rw [show (some (c ++ t) :: fs).filterMap id = (c ++ t) :: fs.filterMap id
                    from by simp,
                  List.getLastD_cons]
      · calc (tailRun (some (c ++ t) :: fs) c.length).2
            = (tailRun fs (c ++ t).length).2 := by
              simp [tailRun, tailRead, hmax]
          _ = ((fs.filterMap id).getLastD (c ++ t)).length := hrec.2
          _ = (((some (c ++ t) :: fs).filterMap id).getLastD c).length := by
              rw [show (some (c ++ t) :: fs).filterMap id = (c ++ t) :: fs.filterMap id
                    from by simp,
                  List.getLastD_cons]

/-- The poll loop can only return a string or run out of observations; it
never lets an exception escape. -/
theorem pollLoop_never_raises (placeholder : Option Unit) (polls : List PollObs) :
    ∀ (core : LoopCore) (e : Str), (pollLoop placeholder core polls).2.2 ≠ .raised e := by
  induction polls with
  | nil => intro core e; simp [pollLoop]
  | cons obs rest ih =>
    intro core e
    cases hx : obs.pollExn with
    | some x => simp [pollLoop, hx]
    | none =>
      cases hc : classifyStatus (pyStrip obs.statusStdout) with
      | completed => simp [pollLoop, hx, hc]
      | failedOrCancelled => simp [pollLoop, hx, hc]
      | nonTerminal => simpa [pollLoop, hx, hc] using ih _ e

/-- The loop-state component of a read is independent of the placeholder. -/
theorem iterRead_core_placeholder (p : Option Unit) (core : LoopCore)
    (file : Option Str) : (iterRead p core file).1 = (iterRead none core file).1 := by
  cases file <;> rfl

/-- The final loop state and the outcome of the poll loop are independent of
the placeholder; only the emitted payload list can differ. -/
theorem pollLoop_placeholder_invariant (p : Option Unit) (polls : List PollObs) :
    ∀ core : LoopCore,
      (pollLoop p core polls).1 = (pollLoop none core polls).1
      ∧ (pollLoop p core polls).2.2 = (pollLoop none core polls).2.2 := by
  induction polls with
  | nil => intro core; exact ⟨rfl, rfl⟩
  | cons obs rest ih =>
    intro core
    cases hx : obs.pollExn with
    | some x => simp [pollLoop, hx]
    | none =>
      cases hc : classifyStatus (pyStrip obs.statusStdout) with
      | completed => simp [pollLoop, hx, hc]
      | failedOrCancelled => simp [pollLoop, hx, hc]
      | nonTerminal =>
        simp only [pollLoop, hx, hc]
        rw [iterRead_core_placeholder]
        exact ih _

/-!
### Claims
-/

/-- C1: the specification states that when a status poll observes `COMPLETED`
the driver performs one final log read before returning, so that with a log
file appearing late holding `"line1\nline2\n"` the accumulated output equals
those two lines.  The source breaks out of the loop before the read block, so
on this input the log is never read (`logReads = 0`) and the result is the
empty accumulated output, not the two lines. -/
theorem completed_breaks_before_final_read :
    (run_alphafold (str "echo hi") (str "/logs") none (str "48:00:00") envLateLog).outcome
      = .ok []
    ∧ (run_alphafold (str "echo hi") (str "/logs") none (str "48:00:00")
        envLateLog).core.logReads = 0
    ∧ (run_alphafold (str "echo hi") (str "/logs") none (str "48:00:00") envLateLog).outcome
      ≠ .ok (str "line1\nline2\n") := by
  decide

/-- C2 counterexample: with exit code 0 and empty stdout the driver returns
the caught `IndexError` description, not the captured stderr
`"quota exceeded"`. -/
theorem empty_stdout_not_stderr :
    (run_alphafold (str "c") (str "/l") none (str "1:00") envEmptyStdout).outcome
      = .ok (str "list index out of range")
    ∧ (run_alphafold (str "c") (str "/l") none (str "1:00") envEmptyStdout).outcome
      ≠ .ok (str "quota exceeded") := by
  decide

/-- C2 amended: a non-zero submit exit code returns the captured stderr
verbatim; exit code 0 with empty or whitespace-only stdout instead returns
the generic handler's `IndexError` description `"list index out of range"`. -/
theorem submit_failure_result (command slurm_log_dir : Str) (placeholder : Option Unit)
    (slurm_time : Str) (env : Env) (hw : env.writeErr = none)
    (hx : env.submitExn = none) :
    (env.submitReturncode ≠ 0 →
      (run_alphafold command slurm_log_dir placeholder slurm_time env).outcome
        = .ok env.submitStderr)
    ∧ (env.submitReturncode = 0 → pySplitWs (pyStrip env.submitStdout) = [] →
      (run_alphafold command slurm_log_dir placeholder slurm_time env).outcome
        = .ok (str "list index out of range")) := by
  constructor
  · intro h
    simp [run_alphafold, hw, hx, h]
  · intro h he
    simp [run_alphafold, hw, hx, h, he]

/-- C2 witness: the amended behaviour at two concrete environments. -/
theorem submit_failure_result_witness :
    (envSubmitReject.writeErr = none ∧ envSubmitReject.submitExn = none
      ∧ envEmptyStdout.writeErr = none ∧ envEmptyStdout.submitExn = none)
    ∧ (run_alphafold (str "c") (str "/l") none (str "1:00") envSubmitReject).outcome
        = .ok envSubmitReject.submitStderr
    ∧ (run_alphafold (str "c") (str "/l") none (str "1:00") envEmptyStdout).outcome
        = .ok (str "list index out of range") :=
  ⟨⟨rfl, rfl, rfl, rfl⟩,
   (submit_failure_result (str "c") (str "/l") none (str "1:00") envSubmitReject
      rfl rfl).1 (by decide),
   (submit_failure_result (str "c") (str "/l") none (str "1:00") envEmptyStdout
      rfl rfl).2 rfl (by decide)⟩

/-- C3 counterexample: the script is written before the `try` block, so an
exception raised while writing it escapes `run_alphafold` instead of becoming
a diagnostic string. -/
theorem script_write_exception_escapes :
    (run_alphafold (str "c") (str "/l") none (str "1:00") envWriteFail).outcome
      = .raised (str "Permission denied") := by
  decide

/-- C3 amended: once the script has been written successfully no exception
escapes: submission failures, job-id parse failures and exceptions inside the
poll loop all surface as returned strings. -/
theorem no_raise_after_script_write (command slurm_log_dir : Str)
    (placeholder : Option Unit) (slurm_time : Str) (env : Env)
    (hw : env.writeErr = none) (e : Str) :
    (run_alphafold command slurm_log_dir placeholder slurm_time env).outcome
      ≠ .raised e := by
  cases env with
  | mk w sx rc so se polls =>
    cases hw
    cases sx with
    | some x => simp [run_alphafold]
    | none =>
      by_cases hrc : rc ≠ 0
      · simp [run_alphafold, hrc]
      · cases hlast : (pySplitWs (pyStrip so)).getLast? with
        | none => simp [run_alphafold, hrc, hlast]
        | some jid =>
          simpa [run_alphafold, hrc, hlast] using
            pollLoop_never_raises placeholder polls ⟨[], 0, 0⟩ e

/-- C3 witness: with the script written, an exception inside a poll iteration
does not escape. -/
theorem no_raise_after_script_write_witness :
    envPollExn.writeErr = none
    ∧ (run_alphafold (str "c") (str "/l") none (str "1:00") envPollExn).outcome
        ≠ .raised (str "boom") :=
  ⟨rfl, no_raise_after_script_write (str "c") (str "/l") none (str "1:00") envPollExn
      rfl (str "boom")⟩

/-- C4 counterexample: a single reading iteration with two new lines invokes
the observer twice — once per new line — not at most once per iteration. -/
theorem observer_called_twice_one_iteration :
    (run_alphafold (str "c") (str "/l") (some ()) (str "1:00")
        envTwoLines).core.logReads = 1
    ∧ (run_alphafold (str "c") (str "/l") (some ()) (str "1:00")
        envTwoLines).observerCalls.length = 2 := by
  decide

/-- C4 amended: within one poll iteration the observer is invoked exactly
once per new line — each time with the full accumulated output so far,
fenced — and not at all when the file is missing (hence never on
missing-file polls, and never when no new lines exist). -/
theorem observer_calls_characterization (core : LoopCore) (content : Str) :
    (iterRead (some ()) core (some content)).2.length
        = (splitLinesKeep (content.drop core.lastReadPos)).length
    ∧ (∀ x ∈ (iterRead (some ()) core (some content)).2,
        x = fencePayload
          (core.outputLines ++ splitLinesKeep (content.drop core.lastReadPos)).flatten)
    ∧ (iterRead (some ()) core none).2 = [] := by
  refine ⟨by simp [iterRead, tailRead], ?_, rfl⟩
  intro x hx
  simp only [iterRead, tailRead, Option.isSome_some, if_true, List.mem_map] at hx
  obtain ⟨a, ha, hxe⟩ := hx
  exact hxe.symm

/-- C4 witness: the per-line invocation count at a concrete iteration. -/
theorem observer_calls_characterization_witness :
    (iterRead (some ()) ⟨[], 0, 0⟩ (some (str "line1\nline2\n"))).2.length
        = (splitLinesKeep (str "line1\nline2\n")).length
    ∧ (∀ x ∈ (iterRead (some ()) ⟨[], 0, 0⟩ (some (str "line1\nline2\n"))).2,
        x = fencePayload ([] ++ splitLinesKeep (str "line1\nline2\n")).flatten)
    ∧ (iterRead (some ()) (⟨[], 0, 0⟩ : LoopCore) none).2 = [] :=
  observer_calls_characterization ⟨[], 0, 0⟩ (str "line1\nline2\n")

/-- C5 counterexample: a status string containing `FAILED` alongside
`COMPLETED` is classified as completed — the `COMPLETED` test runs first —
and the driver treats the job as a success, returning the accumulated output
rather than the failure status. -/
theorem completed_wins_over_failed :
    str "FAILED" <:+: str "COMPLETED FAILED"
    ∧ classifyStatus (str "COMPLETED FAILED") = .completed
    ∧ (run_alphafold (str "c") (str "/l") none (str "1:00") envMixedCF).outcome
        = .ok []
    ∧ (run_alphafold (str "c") (str "/l") none (str "1:00") envMixedCF).outcome
        ≠ .ok (str "COMPLETED FAILED") := by
  decide

/-- C5 amended: `COMPLETED` is checked first and wins when signals mix; a
status containing `FAILED` or `CANCELLED` but not `COMPLETED` is classified
failed/cancelled, never completed; with no terminal keyword the
classification is non-terminal (the loop keeps polling, no crash). -/
theorem classify_priority (s : Str) :
    (str "COMPLETED" <:+: s → classifyStatus s = .completed)
    ∧ ((str "FAILED" <:+: s ∨ str "CANCELLED" <:+: s) → ¬ str "COMPLETED" <:+: s →
        classifyStatus s = .failedOrCancelled)
    ∧ (¬ str "COMPLETED" <:+: s → ¬ str "FAILED" <:+: s → ¬ str "CANCELLED" <:+: s →
        classifyStatus s = .nonTerminal) := by
  refine ⟨fun h => ?_, fun h hn => ?_, fun h1 h2 h3 => ?_⟩
  · unfold classifyStatus
    rw [if_pos h]
  · unfold classifyStatus
    rw [if_neg hn, if_pos h]
  · unfold classifyStatus
    rw [if_neg h1, if_neg (not_or.mpr ⟨h2, h3⟩)]

/-- C5 witness: the failed/cancelled branch at a concrete status string. -/
theorem classify_priority_witness :
    (str "CANCELLED" <:+: str "CANCELLED" ∧ ¬ str "COMPLETED" <:+: str "CANCELLED")
    ∧ classifyStatus (str "CANCELLED") = .failedOrCancelled :=
  ⟨⟨by decide, by decide⟩,
   (classify_priority (str "CANCELLED")).2.1 (Or.inr (by decide)) (by decide)⟩

/-- C6 counterexample: with the appends `"ab"` then `"c\n"` (the first one
ending mid-line), the concatenation of the returned line-sequences is
`["ab", "c\n"]`, which differs from the full content `"abc\n"` split into
lines, `["abc\n"]`: the list-of-lines equality of the claim fails even though
no byte is duplicated or lost. -/
theorem tailer_line_split_mismatch :
    List.Chain (· <+: ·) ([] : Str)
      ([some (str "ab"), some (str "abc\n")].filterMap id)
    ∧ (tailRun [some (str "ab"), some (str "abc\n")] 0).1.flatten
        = [str "ab", str "c\n"]
    ∧ splitLinesKeep (str "abc\n") = [str "abc\n"]
    ∧ (tailRun [some (str "ab"), some (str "abc\n")] 0).1.flatten
        ≠ splitLinesKeep (str "abc\n") := by
  refine ⟨?_, by decide, by decide, by decide⟩
  exact List.Chain.cons (List.nil_prefix)
    (List.Chain.cons ⟨str "c\n", by decide⟩ List.Chain.nil)

/-- C6 amended: threading the cursor through any append-only sequence of file
states (missing files leave it unchanged), the returned lines concatenated as
text are exactly the final file content — no byte returned twice, none
skipped — the final cursor sits at the end of that content, and the cursor is
monotonically non-decreasing throughout.  (The stronger list-of-lines
equality holds only when every read falls on a line boundary.) -/
theorem tailer_no_dup_no_gap (fs : List (Option Str))
    (h : List.Chain (· <+: ·) ([] : Str) (fs.filterMap id)) :
    ((tailRun fs 0).1.flatten.flatten = (fs.filterMap id).getLastD []
      ∧ (tailRun fs 0).2 = ((fs.filterMap id).getLastD []).length)
    ∧ List.Chain' (· ≤ ·) (tailCursors fs 0) := by
  refine ⟨?_, tailCursors_chain fs 0⟩
  have := tailRun_chain_aux fs [] h
  simpa using this

/-- C6 witness: the no-duplication/no-gap property at a concrete append-only
history with a missing-file step. -/
theorem tailer_no_dup_no_gap_witness :
    List.Chain (· <+: ·) ([] : Str)
      ([none, some (str "a\n"), some (str "a\nbc\n")].filterMap id)
    ∧ (((tailRun [none, some (str "a\n"), some (str "a\nbc\n")] 0).1.flatten.flatten
          = (([none, some (str "a\n"), some (str "a\nbc\n")].filterMap id).getLastD [])
        ∧ (tailRun [none, some (str "a\n"), some (str "a\nbc\n")] 0).2
          = (([none, some (str "a\n"), some (str "a\nbc\n")].filterMap
              id).getLastD []).length)
      ∧ List.Chain' (· ≤ ·)
          (tailCursors [none, some (str "a\n"), some (str "a\nbc\n")] 0)) :=
  ⟨List.Chain.cons (List.nil_prefix)
     (List.Chain.cons ⟨str "bc\n", by decide⟩ List.Chain.nil),
   tailer_no_dup_no_gap _
     (List.Chain.cons (List.nil_prefix)
       (List.Chain.cons ⟨str "bc\n", by decide⟩ List.Chain.nil))⟩

/-- C7: the Script Builder is total (a plain function of the spec fields) and
the command round-trips: the command recovered from the rendered script
equals the input exactly, and the script is the header followed by the
command verbatim and the template's trailing newline as its final
statement. -/
theorem script_command_round_trip (command slurm_log_dir slurm_time : Str) :
    extractCommand (buildScriptContent command slurm_log_dir slurm_time)
        slurm_log_dir slurm_time = command
    ∧ ∃ header, buildScriptContent command slurm_log_dir slurm_time
        = header ++ command ++ str "\n" := by
  constructor
  · have hassoc : buildScriptContent command slurm_log_dir slurm_time
        = scriptHeader slurm_log_dir slurm_time ++ (command ++ str "\n") := by
      rw [buildScriptContent, List.append_assoc]
    rw [extractCommand, hassoc, List.drop_left,
      show str "\n" = ['\n'] from rfl]
    simp
  · exact ⟨scriptHeader slurm_log_dir slurm_time, rfl⟩

/-- C8 counterexample: two JobSpecs differing only in `acceleratorCount`
(2 versus 5) render identical scripts, and the script requests `--gpus=1`
rather than the spec's accelerator count of 2. -/
theorem accelerator_count_ignored :
    buildScriptFromSpec ⟨str "echo hi", str "/logs", str "48:00:00", 2⟩
      = buildScriptFromSpec ⟨str "echo hi", str "/logs", str "48:00:00", 5⟩
    ∧ str "--gpus=1"
        <:+: buildScriptFromSpec ⟨str "echo hi", str "/logs", str "48:00:00", 2⟩
    ∧ ¬ str "--gpus=2"
        <:+: buildScriptFromSpec ⟨str "echo hi", str "/logs", str "48:00:00", 2⟩ := by
  set_option maxRecDepth 8000 in
  refine ⟨rfl, by decide, by decide⟩

/-- C8 amended: the header embeds the log paths and the wall-clock limit of
the spec, but the accelerator request is the hard-coded constant
`#SBATCH --gpus=1`, independent of the spec's `acceleratorCount`. -/
theorem script_directives_constant_gpus (c d t : Str) (n m : Nat) :
    buildScriptFromSpec ⟨c, d, t, n⟩ = buildScriptFromSpec ⟨c, d, t, m⟩
    ∧ str "#SBATCH --gpus=1\n" <:+: buildScriptFromSpec ⟨c, d, t, n⟩
    ∧ (str "#SBATCH --time=" ++ t ++ str "\n") <:+: buildScriptFromSpec ⟨c, d, t, n⟩
    ∧ (str "#SBATCH --error=" ++ d ++ str "/run/stderr-%j.log\n")
        <:+: buildScriptFromSpec ⟨c, d, t, n⟩ := by
  refine ⟨rfl, ?_, ?_, ?_⟩
  · refine ⟨str "#!/bin/bash\n" ++ str "#SBATCH --job-name=alphafold_run\n"
      ++ (str "#SBATCH --output=" ++ d ++ str "/run/stdout-%j.log\n")
      ++ (str "#SBATCH --error=" ++ d ++ str "/run/stderr-%j.log\n")
      ++ (str "#SBATCH --time=" ++ t ++ str "\n"),
      str "\n" ++ str "# Run the command\n" ++ c ++ str "\n", ?_⟩
    simp [buildScriptFromSpec, buildScriptContent, scriptHeader, List.append_assoc]
  · refine ⟨str "#!/bin/bash\n" ++ str "#SBATCH --job-name=alphafold_run\n"
      ++ (str "#SBATCH --output=" ++ d ++ str "/run/stdout-%j.log\n")
      ++ (str "#SBATCH --error=" ++ d ++ str "/run/stderr-%j.log\n"),
      str "#SBATCH --gpus=1\n" ++ str "\n" ++ str "# Run the command\n" ++ c ++ str "\n",
      ?_⟩
    simp [buildScriptFromSpec, buildScriptContent, scriptHeader, List.append_assoc]
  · refine ⟨str "#!/bin/bash\n" ++ str "#SBATCH --job-name=alphafold_run\n"
      ++ (str "#SBATCH --output=" ++ d ++ str "/run/stdout-%j.log\n"),
      (str "#SBATCH --time=" ++ t ++ str "\n") ++ str "#SBATCH --gpus=1\n"
        ++ str "\n" ++ str "# Run the command\n" ++ c ++ str "\n", ?_⟩
    simp [buildScriptFromSpec, buildScriptContent, scriptHeader, List.append_assoc]

/-- C9 counterexample: when the status string mixes `CANCELLED` with
`COMPLETED` the driver does not terminate with the raw state string — the
`COMPLETED` branch wins and the accumulated output is returned instead. -/
theorem mixed_cancelled_not_raw_result :
    str "CANCELLED" <:+: str "CANCELLED COMPLETED"
    ∧ (run_alphafold (str "c") (str "/l") none (str "1:00") envMixedCanc).outcome
        = .ok []
    ∧ (run_alphafold (str "c") (str "/l") none (str "1:00") envMixedCanc).outcome
        ≠ .ok (str "CANCELLED COMPLETED") := by
  decide

/-- C9 amended: when a poll's stripped status contains `FAILED` or
`CANCELLED` and not `COMPLETED`, the loop returns the raw stripped state
string at once: the loop state — including the log-read count — is left
exactly as it was, no observer call is made, and the remaining observations
are never consumed. -/
theorem failed_terminal_stops_reads (placeholder : Option Unit) (core : LoopCore)
    (obs : PollObs) (rest : List PollObs) (hx : obs.pollExn = none)
    (hf : str "FAILED" <:+: pyStrip obs.statusStdout
      ∨ str "CANCELLED" <:+: pyStrip obs.statusStdout)
    (hc : ¬ str "COMPLETED" <:+: pyStrip obs.statusStdout) :
    pollLoop placeholder core (obs :: rest)
      = (core, [], .ok (pyStrip obs.statusStdout)) := by
  have hcls : classifyStatus (pyStrip obs.statusStdout) = .failedOrCancelled := by
    unfold classifyStatus
    rw [if_neg hc, if_pos hf]
  simp [pollLoop, hx, hcls]

/-- C9 witness: a `CANCELLED` poll leaves a non-trivial loop state untouched
and ignores a pending further observation. -/
theorem failed_terminal_stops_reads_witness :
    ((⟨str "CANCELLED\n", some (str "zzz\n"), none⟩ : PollObs).pollExn = none
      ∧ (str "FAILED" <:+: pyStrip (str "CANCELLED\n")
          ∨ str "CANCELLED" <:+: pyStrip (str "CANCELLED\n"))
      ∧ ¬ str "COMPLETED" <:+: pyStrip (str "CANCELLED\n"))
    ∧ pollLoop none ⟨[str "x\n"], 2, 1⟩
        [⟨str "CANCELLED\n", some (str "zzz\n"), none⟩,
         ⟨str "RUNNING", some (str "zzz\n"), none⟩]
      = (⟨[str "x\n"], 2, 1⟩, [], .ok (pyStrip (str "CANCELLED\n"))) :=
  ⟨⟨rfl, Or.inr (by decide), by decide⟩,
   failed_terminal_stops_reads none ⟨[str "x\n"], 2, 1⟩
     ⟨str "CANCELLED\n", some (str "zzz\n"), none⟩
     [⟨str "RUNNING", some (str "zzz\n"), none⟩]
     rfl (Or.inr (by decide)) (by decide)⟩

/-- C10: the optional placeholder influences only the emitted observer
payloads: the rendered script, the final loop state (accumulated output,
cursor, read count) and the outcome of `run_alphafold` are identical whether
the placeholder is attached or absent, for every environment. -/
theorem placeholder_noninterference (command slurm_log_dir : Str)
    (placeholder : Option Unit) (slurm_time : Str) (env : Env) :
    (run_alphafold command slurm_log_dir placeholder slurm_time env).script
      = (run_alphafold command slurm_log_dir none slurm_time env).script
    ∧ (run_alphafold command slurm_log_dir placeholder slurm_time env).core
      = (run_alphafold command slurm_log_dir none slurm_time env).core
    ∧ (run_alphafold command slurm_log_dir placeholder slurm_time env).outcome
      = (run_alphafold command slurm_log_dir none slurm_time env).outcome := by
  cases env with
  | mk w sx rc so se polls =>
    cases w with
    | some e => exact ⟨rfl, rfl, rfl⟩
    | none =>
      cases sx with
      | some e => exact ⟨rfl, rfl, rfl⟩
      | none =>
        by_cases hrc : rc ≠ 0
        · simp [run_alphafold, hrc]
        · cases hlast : (pySplitWs (pyStrip so)).getLast? with
          | none => simp [run_alphafold, hrc, hlast]
          | some jid =>
            have h := pollLoop_placeholder_invariant placeholder polls ⟨[], 0, 0⟩
            refine ⟨?_, ?_, ?_⟩
            · simp [run_alphafold, hrc, hlast]
            · simpa [run_alphafold, hrc, hlast] using h.1
            · simpa [run_alphafold, hrc, hlast] using h.2

end Execution
